import Mathlib

/-!
Shallow embedding of the settings components of the valexa front end
(DataSetting.vue, ProfileSetting.vue and the AdvancedSetting component),
together with a spec-modelled Vuex settings store, and proofs about the
settings-accessor contract and the boolean/label conversion helper.
-/

/-- A JavaScript runtime value as the settings components handle them:
the undefined sentinel, null, booleans, strings, and numbers (all numbers
that occur in these components are integral, so numbers are embedded as
integers). -/
inductive JSValue where
  | undef : JSValue
  | null : JSValue
  | bool : Bool → JSValue
  | str : String → JSValue
  | num : Int → JSValue
deriving DecidableEq

/-- JavaScript strict equality between a runtime value and a string
(`value === someString`): true exactly when the value is that string. -/
def strictEqString : JSValue → String → Bool
  | JSValue.str s, t => s == t
  | _, _ => false

/-- JavaScript strict equality against the boolean literal true
(`value === true`): true exactly on the strict boolean true. -/
def strictEqTrueLit : JSValue → Bool
  | JSValue.bool b => b
  | _ => false

/-- The languageText prop slice used by the settings components: the two
localized display labels standing for the two values of a boolean setting. -/
structure LanguageText where
  selectTrue : String
  selectFalse : String
deriving DecidableEq

/-- Modelled from the spec: the shared settings store (spec section 3), a
mapping keyed by (group name, setting key) to a value.  The Vuex store
module implementing getSettingsValue / setSettingsValue is not among the
provided source files; only the view components that call it are.  Per the
spec, a pair that was never initialized reads as the undefined sentinel. -/
def SettingsStore : Type := String → String → JSValue

/-- Modelled from the spec: the store before any (group, key) pair has been
set; every read yields the undefined sentinel. -/
def emptyStore : SettingsStore := fun _ _ => JSValue.undef

/-- Modelled from the spec: setSettingsValue writes a value into the store
for the given group name and setting key; the write is visible to all later
readers of that pair. -/
def setSettingsValue (st : SettingsStore) (name setting : String)
    (value : JSValue) : SettingsStore :=
  fun n k => if n = name ∧ k = setting then value else st n k

/-- Modelled from the spec: getSettingsValue looks up the current value for
a setting; it fails softly (returns the undefined sentinel) when the pair
was never set. -/
def getSettingsValue (st : SettingsStore) (name setting : String) : JSValue :=
  st name setting

/-- Modelled from the spec: getSettingsValue as an explicit state step.  The
spec states that a read has no side effects, so the step returns the store
it was given alongside the value. -/
def getSettingsValueSt (st : SettingsStore) (name setting : String) :
    JSValue × SettingsStore :=
  (st name setting, st)

namespace DataSetting

/-- convertTrueFalse from DataSetting.vue (lines 86 to 96): with the toBool
flag set it returns the strict-equality comparison of the value with the
selectTrue label; without the flag it maps the strict boolean true to the
selectTrue label and every other value to the selectFalse label.  Call
sites that omit the flag pass the falsy undefined, embedded here as
false. -/
def convertTrueFalse (lang : LanguageText) (value : JSValue) (toBool : Bool) :
    JSValue :=
  if toBool then
    JSValue.bool (strictEqString value lang.selectTrue)
  else
    if strictEqTrueLit value then
      JSValue.str lang.selectTrue
    else
      JSValue.str lang.selectFalse

/-- The useMedian computed getter (DataSetting.vue lines 51 to 57). -/
def useMedianGet (lang : LanguageText) (st : SettingsStore) (name : String) :
    JSValue :=
  convertTrueFalse lang (getSettingsValue st name "use_median") false

/-- The useMedian computed setter (DataSetting.vue lines 58 to 64). -/
def useMedianSet (lang : LanguageText) (st : SettingsStore) (name : String)
    (value : JSValue) : SettingsStore :=
  setSettingsValue st name "use_median" (convertTrueFalse lang value true)

/-- The dataTransformation computed getter (DataSetting.vue lines 66 to 72). -/
def dataTransformationGet (st : SettingsStore) (name : String) : JSValue :=
  getSettingsValue st name "data_transformation"

/-- The dataTransformation computed setter (DataSetting.vue lines 73 to 79). -/
def dataTransformationSet (st : SettingsStore) (name : String)
    (value : JSValue) : SettingsStore :=
  setSettingsValue st name "data_transformation" value

/-- The useMedian getter threaded through the state-step read, making its
effect (none) on the store explicit. -/
def useMedianGetSt (lang : LanguageText) (st : SettingsStore) (name : String) :
    JSValue × SettingsStore :=
  (convertTrueFalse lang (getSettingsValueSt st name "use_median").1 false,
    (getSettingsValueSt st name "use_median").2)

end DataSetting

namespace ProfileSetting

/-- convertTrueFalse from ProfileSetting.vue (lines 115 to 125); textually
the same function as the DataSetting copy. -/
def convertTrueFalse (lang : LanguageText) (value : JSValue) (toBool : Bool) :
    JSValue :=
  if toBool then
    JSValue.bool (strictEqString value lang.selectTrue)
  else
    if strictEqTrueLit value then
      JSValue.str lang.selectTrue
    else
      JSValue.str lang.selectFalse

/-- The toleranceLimit computed getter (ProfileSetting.vue lines 65 to 71). -/
def toleranceLimitGet (st : SettingsStore) (name : String) : JSValue :=
  getSettingsValue st name "tolerance_limit"

/-- The toleranceLimit computed setter (ProfileSetting.vue lines 72 to 78). -/
def toleranceLimitSet (st : SettingsStore) (name : String) (value : JSValue) :
    SettingsStore :=
  setSettingsValue st name "tolerance_limit" value

/-- The acceptanceLimit computed getter (ProfileSetting.vue lines 80 to 86). -/
def acceptanceLimitGet (st : SettingsStore) (name : String) : JSValue :=
  getSettingsValue st name "acceptance_limit"

/-- The acceptanceLimit computed setter (ProfileSetting.vue lines 87 to 93). -/
def acceptanceLimitSet (st : SettingsStore) (name : String) (value : JSValue) :
    SettingsStore :=
  setSettingsValue st name "acceptance_limit" value

/-- The acceptanceLimit getter threaded through the state-step read. -/
def acceptanceLimitGetSt (st : SettingsStore) (name : String) :
    JSValue × SettingsStore :=
  getSettingsValueSt st name "acceptance_limit"

/-- The acceptanceAbsolute computed getter (ProfileSetting.vue lines 96 to
101): the stored value passed through convertTrueFalse in the label
direction. -/
def acceptanceAbsoluteGet (lang : LanguageText) (st : SettingsStore)
    (name : String) : JSValue :=
  convertTrueFalse lang (getSettingsValue st name "acceptance_absolute") false

/-- The acceptanceAbsolute computed setter (ProfileSetting.vue lines 102 to
108): stores the incoming label converted with the toBool flag. -/
def acceptanceAbsoluteSet (lang : LanguageText) (st : SettingsStore)
    (name : String) (value : JSValue) : SettingsStore :=
  setSettingsValue st name "acceptance_absolute"
    (convertTrueFalse lang value true)

end ProfileSetting

namespace AdvancedSetting

/-- convertTrueFalse from the AdvancedSetting component (lines 176 to 186 of
its script); textually the same function as the other two copies. -/
def convertTrueFalse (lang : LanguageText) (value : JSValue) (toBool : Bool) :
    JSValue :=
  if toBool then
    JSValue.bool (strictEqString value lang.selectTrue)
  else
    if strictEqTrueLit value then
      JSValue.str lang.selectTrue
    else
      JSValue.str lang.selectFalse

/-- The correctionAllow computed getter (AdvancedSetting lines 52 to 57). -/
def correctionAllowGet (lang : LanguageText) (st : SettingsStore)
    (name : String) : JSValue :=
  convertTrueFalse lang (getSettingsValue st name "correction_allow") false

/-- The correctionAllow computed setter (AdvancedSetting lines 58 to 64). -/
def correctionAllowSet (lang : LanguageText) (st : SettingsStore)
    (name : String) (value : JSValue) : SettingsStore :=
  setSettingsValue st name "correction_allow" (convertTrueFalse lang value true)

/-- The correctionForcedValue computed getter (AdvancedSetting lines 67 to 72). -/
def correctionForcedValueGet (st : SettingsStore) (name : String) : JSValue :=
  getSettingsValue st name "correction_forced_value"

/-- The correctionForcedValue computed setter (AdvancedSetting lines 73 to 79). -/
def correctionForcedValueSet (st : SettingsStore) (name : String)
    (value : JSValue) : SettingsStore :=
  setSettingsValue st name "correction_forced_value" value

/-- The correctionForcedValue getter threaded through the state-step read. -/
def correctionForcedValueGetSt (st : SettingsStore) (name : String) :
    JSValue × SettingsStore :=
  getSettingsValueSt st name "correction_forced_value"

/-- The correctionRoundTo computed getter and setter (lines 82 to 94). -/
def correctionRoundToSet (st : SettingsStore) (name : String)
    (value : JSValue) : SettingsStore :=
  setSettingsValue st name "correction_round_to" value

/-- The correctionThreshold computed setter (lines 103 to 109). -/
def correctionThresholdSet (st : SettingsStore) (name : String)
    (value : JSValue) : SettingsStore :=
  setSettingsValue st name "correction_threshold" value

/-- The rollingData computed setter (lines 118 to 124). -/
def rollingDataSet (st : SettingsStore) (name : String) (value : JSValue) :
    SettingsStore :=
  setSettingsValue st name "rolling_data" value

/-- The rollingLimit computed setter (lines 133 to 139); note the store key
is the camel-cased rollingLimit in the source. -/
def rollingLimitSet (st : SettingsStore) (name : String) (value : JSValue) :
    SettingsStore :=
  setSettingsValue st name "rollingLimit" value

/-- The significantFigure computed setter (lines 148 to 154). -/
def significantFigureSet (st : SettingsStore) (name : String)
    (value : JSValue) : SettingsStore :=
  setSettingsValue st name "significant_figure" value

/-- The modelToTest computed setter (lines 163 to 169). -/
def modelToTestSet (st : SettingsStore) (name : String) (value : JSValue) :
    SettingsStore :=
  setSettingsValue st name "model_to_test" value

end AdvancedSetting

/-- One user-interface write: an application of one of the
component computed setters, carrying the labels (where the setter converts), the
settings group name and the incoming form value. -/
inductive UIAction where
  | useMedian (lang : LanguageText) (name : String) (value : JSValue)
  | dataTransformation (name : String) (value : JSValue)
  | toleranceLimit (name : String) (value : JSValue)
  | acceptanceLimit (name : String) (value : JSValue)
  | acceptanceAbsolute (lang : LanguageText) (name : String) (value : JSValue)
  | correctionAllow (lang : LanguageText) (name : String) (value : JSValue)
  | correctionForcedValue (name : String) (value : JSValue)
  | correctionRoundTo (name : String) (value : JSValue)
  | correctionThreshold (name : String) (value : JSValue)
  | rollingData (name : String) (value : JSValue)
  | rollingLimit (name : String) (value : JSValue)
  | significantFigure (name : String) (value : JSValue)
  | modelToTest (name : String) (value : JSValue)

/-- Run one UI write against the store, dispatching to the component setter
it corresponds to. -/
def applyUIAction (st : SettingsStore) : UIAction → SettingsStore
  | UIAction.useMedian lang name v => DataSetting.useMedianSet lang st name v
  | UIAction.dataTransformation name v =>
      DataSetting.dataTransformationSet st name v
  | UIAction.toleranceLimit name v => ProfileSetting.toleranceLimitSet st name v
  | UIAction.acceptanceLimit name v =>
      ProfileSetting.acceptanceLimitSet st name v
  | UIAction.acceptanceAbsolute lang name v =>
      ProfileSetting.acceptanceAbsoluteSet lang st name v
  | UIAction.correctionAllow lang name v =>
      AdvancedSetting.correctionAllowSet lang st name v
  | UIAction.correctionForcedValue name v =>
      AdvancedSetting.correctionForcedValueSet st name v
  | UIAction.correctionRoundTo name v =>
      AdvancedSetting.correctionRoundToSet st name v
  | UIAction.correctionThreshold name v =>
      AdvancedSetting.correctionThresholdSet st name v
  | UIAction.rollingData name v => AdvancedSetting.rollingDataSet st name v
  | UIAction.rollingLimit name v => AdvancedSetting.rollingLimitSet st name v
  | UIAction.significantFigure name v =>
      AdvancedSetting.significantFigureSet st name v
  | UIAction.modelToTest name v => AdvancedSetting.modelToTestSet st name v

/-- Run a sequence of UI writes left to right. -/
def applyUIActions (st : SettingsStore) : List UIAction → SettingsStore
  | [] => st
  | a :: rest => applyUIActions (applyUIAction st a) rest

/-- The setting keys whose UI setters write through convertTrueFalse. -/
def boolBackedKeys : List String :=
  ["use_median", "acceptance_absolute", "correction_allow"]

/-- A value is a strict JavaScript boolean. -/
def isStrictBool : JSValue → Bool
  | JSValue.bool _ => true
  | _ => false

/-- Every boolean-backed entry of the store is a strict boolean, or still
the never-set sentinel. -/
def boolKeysOK (st : SettingsStore) : Prop :=
  ∀ name k, k ∈ boolBackedKeys →
    isStrictBool (st name k) = true ∨ st name k = JSValue.undef

/-- Writing a strict boolean anywhere preserves the boolean-backed-keys
invariant. -/
theorem boolKeysOK_set_bool {st : SettingsStore} (h : boolKeysOK st)
    (n0 k0 : String) (b : Bool) :
    boolKeysOK (setSettingsValue st n0 k0 (JSValue.bool b)) := by
  intro name k hk
  by_cases hc : name = n0 ∧ k = k0
  · left
    simp [setSettingsValue, hc, isStrictBool]
  · have := h name k hk
    simpa [setSettingsValue, hc] using this

/-- Writing any value under a key that is not boolean-backed preserves the
boolean-backed-keys invariant. -/
theorem boolKeysOK_set_other {st : SettingsStore} (h : boolKeysOK st)
    (n0 k0 : String) (hk0 : k0 ∉ boolBackedKeys) (v : JSValue) :
    boolKeysOK (setSettingsValue st n0 k0 v) := by
  intro name k hk
  have hne : ¬ (name = n0 ∧ k = k0) := by
    rintro ⟨-, hkk⟩
    exact hk0 (hkk ▸ hk)
  have := h name k hk
  simpa [setSettingsValue, hne] using this

/-- In the toBool direction every convertTrueFalse copy returns the strict
boolean comparing the value with the selectTrue label. -/
theorem convertTrueFalse_toBool_eq (lang : LanguageText) (v : JSValue) :
    DataSetting.convertTrueFalse lang v true =
      JSValue.bool (strictEqString v lang.selectTrue) := rfl

/-- One UI write preserves the boolean-backed-keys invariant. -/
theorem boolKeysOK_applyUIAction {st : SettingsStore} (h : boolKeysOK st)
    (a : UIAction) : boolKeysOK (applyUIAction st a) := by
  cases a with
  | useMedian lang name v =>
      exact boolKeysOK_set_bool h name "use_median"
        (strictEqString v lang.selectTrue)
  | dataTransformation name v =>
      exact boolKeysOK_set_other h name "data_transformation" (by decide) v
  | toleranceLimit name v =>
      exact boolKeysOK_set_other h name "tolerance_limit" (by decide) v
  | acceptanceLimit name v =>
      exact boolKeysOK_set_other h name "acceptance_limit" (by decide) v
  | acceptanceAbsolute lang name v =>
      exact boolKeysOK_set_bool h name "acceptance_absolute"
        (strictEqString v lang.selectTrue)
  | correctionAllow lang name v =>
      exact boolKeysOK_set_bool h name "correction_allow"
        (strictEqString v lang.selectTrue)
  | correctionForcedValue name v =>
      exact boolKeysOK_set_other h name "correction_forced_value" (by decide) v
  | correctionRoundTo name v =>
      exact boolKeysOK_set_other h name "correction_round_to" (by decide) v
  | correctionThreshold name v =>
      exact boolKeysOK_set_other h name "correction_threshold" (by decide) v
  | rollingData name v =>
      exact boolKeysOK_set_other h name "rolling_data" (by decide) v
  | rollingLimit name v =>
      exact boolKeysOK_set_other h name "rollingLimit" (by decide) v
  | significantFigure name v =>
      exact boolKeysOK_set_other h name "significant_figure" (by decide) v
  | modelToTest name v =>
      exact boolKeysOK_set_other h name "model_to_test" (by decide) v

/-- A sequence of UI writes preserves the boolean-backed-keys invariant. -/
theorem boolKeysOK_applyUIActions {st : SettingsStore} (h : boolKeysOK st)
    (acts : List UIAction) : boolKeysOK (applyUIActions st acts) := by
  induction acts generalizing st with
  | nil => exact h
  | cons a rest ih => exact ih (boolKeysOK_applyUIAction h a)

/-- C1 (counterexample): when the two supplied labels are the equal pair
"Yes" / "Yes", converting the boolean false to its display label and back
through convertTrueFalse yields true, so the round-trip claim fails for
that pair of supplied labels. -/
theorem toBool_toBoolLabel_roundtrip_cex :
    DataSetting.convertTrueFalse (LanguageText.mk "Yes" "Yes")
        (DataSetting.convertTrueFalse (LanguageText.mk "Yes" "Yes")
          (JSValue.bool false) false) true
      ≠ JSValue.bool false := by decide

/-- C1 (amended): for every pair of supplied labels whose selectTrue and
selectFalse are distinct, converting a boolean to its display label and
converting that label back yields the boolean again. -/
theorem toBool_toBoolLabel_roundtrip (lang : LanguageText)
    (h : lang.selectTrue ≠ lang.selectFalse) (b : Bool) :
    DataSetting.convertTrueFalse lang
        (DataSetting.convertTrueFalse lang (JSValue.bool b) false) true =
      JSValue.bool b := by
  cases b with
  | true =>
      simp [DataSetting.convertTrueFalse, strictEqTrueLit, strictEqString]
  | false =>
      simp [DataSetting.convertTrueFalse, strictEqTrueLit, strictEqString]
      exact fun hcontra => h hcontra.symm

/-- C1 (witness): the amended round-trip applied at the distinct concrete
labels "Yes" / "No" and the boolean false. -/
theorem toBool_toBoolLabel_roundtrip_witness :
    (LanguageText.mk "Yes" "No").selectTrue ≠
        (LanguageText.mk "Yes" "No").selectFalse ∧
    DataSetting.convertTrueFalse (LanguageText.mk "Yes" "No")
        (DataSetting.convertTrueFalse (LanguageText.mk "Yes" "No")
          (JSValue.bool false) false) true = JSValue.bool false :=
  ⟨by decide,
    toBool_toBoolLabel_roundtrip (LanguageText.mk "Yes" "No") (by decide) false⟩

/-- C2: for every label string different from the supplied selectTrue label
(the empty string and arbitrary malformed input included), convertTrueFalse
with the toBool flag returns the strict boolean false; the function is
total, so no error can be raised. -/
theorem toBool_unrecognized_label_false (lang : LanguageText) (v : String)
    (h : v ≠ lang.selectTrue) :
    DataSetting.convertTrueFalse lang (JSValue.str v) true =
      JSValue.bool false := by
  simp [DataSetting.convertTrueFalse, strictEqString]
  exact h

/-- C2 (witness): the fallback applied at the labels "Yes" / "No" and the
empty label string. -/
theorem toBool_unrecognized_label_false_witness :
    "" ≠ (LanguageText.mk "Yes" "No").selectTrue ∧
    DataSetting.convertTrueFalse (LanguageText.mk "Yes" "No")
        (JSValue.str "") true = JSValue.bool false :=
  ⟨by decide,
    toBool_unrecognized_label_false (LanguageText.mk "Yes" "No") "" (by decide)⟩

/-- C3: after setting the key acceptance_absolute of group profileA to the
boolean true (from any prior store), getSettingsValue returns true and the
acceptanceAbsolute computed getter with labels "Yes" / "No" returns "Yes". -/
theorem acceptance_absolute_concrete_scenario (st : SettingsStore) :
    getSettingsValue
        (setSettingsValue st "profileA" "acceptance_absolute"
          (JSValue.bool true)) "profileA" "acceptance_absolute" =
      JSValue.bool true ∧
    ProfileSetting.acceptanceAbsoluteGet (LanguageText.mk "Yes" "No")
        (setSettingsValue st "profileA" "acceptance_absolute"
          (JSValue.bool true)) "profileA" = JSValue.str "Yes" := by
  constructor
  · simp [getSettingsValue, setSettingsValue]
  · simp [ProfileSetting.acceptanceAbsoluteGet, ProfileSetting.convertTrueFalse,
      getSettingsValue, setSettingsValue, strictEqTrueLit]

/-- C4 (counterexample): on the never-set store the boolean-valued useMedian
getter with labels "Yes" / "No" displays the selectFalse label "No" — it is
neither the undefined sentinel nor the blank string, so the display-as-blank
behaviour does not extend to boolean-valued settings. -/
theorem missing_boolean_setting_displays_label :
    DataSetting.useMedianGet (LanguageText.mk "Yes" "No") emptyStore
        "profileA" = JSValue.str "No" ∧
    JSValue.str "No" ≠ JSValue.undef ∧
    JSValue.str "No" ≠ JSValue.str "" := by
  refine ⟨rfl, by decide, by decide⟩

/-- C4 (amended): a read of a never-set (group, key) pair returns the
undefined sentinel and raises no error; getters that return the store value
directly therefore display it as blank, while the boolean-valued getters
that pass the value through convertTrueFalse display the selectFalse label
instead of a blank value. -/
theorem missing_setting_reads (name key : String) (lang : LanguageText) :
    getSettingsValue emptyStore name key = JSValue.undef ∧
    DataSetting.dataTransformationGet emptyStore name = JSValue.undef ∧
    ProfileSetting.toleranceLimitGet emptyStore name = JSValue.undef ∧
    DataSetting.useMedianGet lang emptyStore name =
      JSValue.str lang.selectFalse :=
  ⟨rfl, rfl, rfl, rfl⟩

/-- C5: the store-level round-trip — setting any (group, key) pair to any
value and reading it back returns exactly that value, both through the bare
store operations and through the paired component computed setters and
getters (dataTransformation and toleranceLimit shown). -/
theorem set_get_roundtrip (st : SettingsStore) (g k : String) (v : JSValue) :
    getSettingsValue (setSettingsValue st g k v) g k = v ∧
    DataSetting.dataTransformationGet
        (DataSetting.dataTransformationSet st g v) g = v ∧
    ProfileSetting.toleranceLimitGet
        (ProfileSetting.toleranceLimitSet st g v) g = v := by
  refine ⟨?_, ?_, ?_⟩ <;>
    simp [getSettingsValue, setSettingsValue,
      DataSetting.dataTransformationGet, DataSetting.dataTransformationSet,
      ProfileSetting.toleranceLimitGet, ProfileSetting.toleranceLimitSet]

/-- C6: for each of the two supplied labels, converting the label to a
boolean and converting that boolean back yields the label again, whatever
the supplied pair of labels; the conversion is a plain function of its
arguments, hence pure and stateless. -/
theorem toBoolLabel_toBool_roundtrip (lang : LanguageText) :
    ProfileSetting.convertTrueFalse lang
        (ProfileSetting.convertTrueFalse lang
          (JSValue.str lang.selectTrue) true) false =
      JSValue.str lang.selectTrue ∧
    ProfileSetting.convertTrueFalse lang
        (ProfileSetting.convertTrueFalse lang
          (JSValue.str lang.selectFalse) true) false =
      JSValue.str lang.selectFalse := by
  constructor
  · simp [ProfileSetting.convertTrueFalse, strictEqString, strictEqTrueLit]
  · by_cases h : lang.selectFalse = lang.selectTrue
    · simp [ProfileSetting.convertTrueFalse, strictEqString, strictEqTrueLit, h]
    · simp [ProfileSetting.convertTrueFalse, strictEqString, strictEqTrueLit, h]

/-- C7: reading a setting through a component computed getter leaves the
settings store unchanged — shown for the bare store read and for the
acceptanceLimit, correctionForcedValue and useMedian getters threaded
through the explicit state-step read. -/
theorem get_no_side_effects (st : SettingsStore) (name setting : String)
    (lang : LanguageText) :
    (getSettingsValueSt st name setting).2 = st ∧
    (ProfileSetting.acceptanceLimitGetSt st name).2 = st ∧
    (AdvancedSetting.correctionForcedValueGetSt st name).2 = st ∧
    (DataSetting.useMedianGetSt lang st name).2 = st :=
  ⟨rfl, rfl, rfl, rfl⟩

/-- C8: in the label direction convertTrueFalse returns the selectTrue
label exactly on the strict boolean true; every other value — undefined,
null, the string "true", the number 1, and the rest — yields the
selectFalse label, so the boolean getters always produce one of the two
labels and never a blank or undefined display value. -/
theorem label_direction_strict_true_only (lang : LanguageText) (v : JSValue)
    (h : v ≠ JSValue.bool true) :
    DataSetting.convertTrueFalse lang v false =
        JSValue.str lang.selectFalse ∧
    DataSetting.convertTrueFalse lang (JSValue.bool true) false =
        JSValue.str lang.selectTrue := by
  constructor
  · cases v with
    | bool b =>
        cases b with
        | true => exact absurd rfl h
        | false => simp [DataSetting.convertTrueFalse, strictEqTrueLit]
    | undef => simp [DataSetting.convertTrueFalse, strictEqTrueLit]
    | null => simp [DataSetting.convertTrueFalse, strictEqTrueLit]
    | str s => simp [DataSetting.convertTrueFalse, strictEqTrueLit]
    | num n => simp [DataSetting.convertTrueFalse, strictEqTrueLit]
  · simp [DataSetting.convertTrueFalse, strictEqTrueLit]

/-- C8 (witness): the label direction applied at the labels "Yes" / "No"
and the string value "true", which is not the strict boolean true. -/
theorem label_direction_strict_true_only_witness :
    JSValue.str "true" ≠ JSValue.bool true ∧
    DataSetting.convertTrueFalse (LanguageText.mk "Yes" "No")
        (JSValue.str "true") false = JSValue.str "No" :=
  ⟨by decide,
    (label_direction_strict_true_only (LanguageText.mk "Yes" "No")
      (JSValue.str "true") (by decide)).1⟩

/-- C9: the three convertTrueFalse copies in DataSetting, ProfileSetting and
the AdvancedSetting component agree on every value, toBool flag and label
pair. -/
theorem convertTrueFalse_copies_agree (lang : LanguageText) (v : JSValue)
    (b : Bool) :
    DataSetting.convertTrueFalse lang v b =
        ProfileSetting.convertTrueFalse lang v b ∧
    ProfileSetting.convertTrueFalse lang v b =
        AdvancedSetting.convertTrueFalse lang v b :=
  ⟨rfl, rfl⟩

/-- C10: each UI-facing boolean setter (useMedian, acceptanceAbsolute,
correctionAllow) stores the strict boolean obtained by comparing the
incoming value with the selectTrue label — never a label string — and
consequently any sequence of UI writes preserves the invariant that the
boolean-backed store entries hold only strict booleans or the never-set
sentinel. -/
theorem ui_boolean_writes_store_booleans (lang : LanguageText)
    (st : SettingsStore) (name : String) (v : JSValue)
    (acts : List UIAction) (h : boolKeysOK st) :
    getSettingsValue (DataSetting.useMedianSet lang st name v) name
        "use_median" = JSValue.bool (strictEqString v lang.selectTrue) ∧
    getSettingsValue (ProfileSetting.acceptanceAbsoluteSet lang st name v)
        name "acceptance_absolute" =
      JSValue.bool (strictEqString v lang.selectTrue) ∧
    getSettingsValue (AdvancedSetting.correctionAllowSet lang st name v) name
        "correction_allow" = JSValue.bool (strictEqString v lang.selectTrue) ∧
    boolKeysOK (applyUIActions st acts) := by
  refine ⟨?_, ?_, ?_, boolKeysOK_applyUIActions h acts⟩ <;>
    simp [getSettingsValue, setSettingsValue,
      DataSetting.useMedianSet, DataSetting.convertTrueFalse,
      ProfileSetting.acceptanceAbsoluteSet, ProfileSetting.convertTrueFalse,
      AdvancedSetting.correctionAllowSet, AdvancedSetting.convertTrueFalse]

/-- C10 (witness): the invariant discharged at the never-set store and a
concrete two-write UI sequence with labels "Yes" / "No". -/
theorem ui_boolean_writes_store_booleans_witness :
    boolKeysOK emptyStore ∧
    boolKeysOK (applyUIActions emptyStore
      [UIAction.useMedian (LanguageText.mk "Yes" "No") "profileA"
        (JSValue.str "Yes"),
       UIAction.dataTransformation "profileA" (JSValue.str "log10")]) :=
  ⟨fun _ _ _ => Or.inr rfl,
    (ui_boolean_writes_store_booleans (LanguageText.mk "Yes" "No") emptyStore
      "profileA" (JSValue.str "Yes")
      [UIAction.useMedian (LanguageText.mk "Yes" "No") "profileA"
        (JSValue.str "Yes"),
       UIAction.dataTransformation "profileA" (JSValue.str "log10")]
      (fun _ _ _ => Or.inr rfl)).2.2.2⟩
